import Mathlib

/-!
Verification of the savings-balance reconciliation logic of the
budget-compass-be repository.

The embedding follows `src/app/transactions.py`, `src/app/budget_items.py`
and `src/app/models.py`.  Monetary amounts (Python `Decimal` with two
fractional digits) are modelled by `Int`, read as an exact count of the
smallest currency unit: the balance logic uses only addition, subtraction
and negation, on which the model is exact.  Datetimes are modelled by an
abstract `Nat` instant supplied to each operation, and row identifiers by
`Nat`.
ORM tables are lists of records; `session.get(Model, id)` becomes
`List.find?` on the id, and `select(...).first()` becomes `List.find?`
on the filter.

Note on the source snapshot: `src/app/transactions.py` imports
`SavingsCategoryBalance` from `.models` and reads/writes
`Transaction.category_id` and `TransactionCreate.category_id`, but the
`src/app/models.py` snapshot defines neither the `SavingsCategoryBalance`
class nor any `category_id` field on `Transaction`/`TransactionCreate`
(its `budget_item_id` is required).  The savings-capable declarations are
therefore repository code missing from the snapshot; they are modelled
from the spec where indicated, while `src/app/models.py` as written is
also embedded verbatim (`TransactionCreate` below) to record the
discrepancy.
-/

namespace BudgetCompass

/-- `CategoryType` enum from `src/app/models.py`. -/
inductive CategoryType where
  | income | monthly | savings | cash
deriving DecidableEq, Repr

/-- `AccountType` enum from `src/app/models.py`. -/
inductive AccountType where
  | checking | savings
deriving DecidableEq, Repr

/-- `Category` table row (`src/app/models.py`). -/
structure Category where
  id : Nat
  name : String
  is_active : Bool
  user_id : Nat
deriving DecidableEq, Repr

/-- `Budget` table row (`src/app/models.py`). -/
structure Budget where
  id : Nat
  month : Nat
  year : Nat
  name : String
  is_active : Bool
  user_id : Nat
deriving DecidableEq, Repr

/-- `BudgetItem` table row (`src/app/models.py`).  The Python field
`amount` is a float used only for reporting; it is modelled exactly. -/
structure BudgetItem where
  id : Nat
  amount : Int
  category_type : CategoryType
  is_active : Bool
  budget_id : Nat
  category_id : Nat
deriving DecidableEq, Repr

/-- `Transaction` table row.  Fields from `src/app/models.py`
(`Transaction`, lines 124-141), except the two link fields:
`src/app/models.py` declares `budget_item_id` as required and has no
`category_id`, but `src/app/transactions.py` (lines 97-104, 231, 282,
319) stores savings transactions with a `category_id` and no
`budget_item_id`.  Modelled from the spec: "optional link to a budget
item (checking) or category (savings)" (spec §3), the declaration being
missing from the snapshot. -/
structure Transaction where
  id : Nat
  amount : Int
  description : Option String
  transaction_date : Nat
  account_type : AccountType
  is_active : Bool
  created_at : Nat
  updated_at : Nat
  deleted_at : Option Nat
  budget_item_id : Option Nat
  category_id : Option Nat
  user_id : Nat
deriving DecidableEq, Repr

/-- Modelled from the spec: the `SavingsCategoryBalance` table, imported
by `src/app/transactions.py` from `.models` but absent from the
`src/app/models.py` snapshot.  Spec §3: "per (user, category) pair;
funded_amount, spent_amount, available_balance = funded − spent, pointer
to last contributing transaction, updated_at".  Field writes in
`src/app/transactions.py` lines 414-428 and 448-463 fix the field set. -/
structure SavingsCategoryBalance where
  id : Nat
  user_id : Nat
  category_id : Nat
  funded_amount : Int
  spent_amount : Int
  available_balance : Int
  last_transaction_id : Option Nat
  updated_at : Nat
deriving DecidableEq, Repr

/-- `TransactionCreate` request schema exactly as declared in
`src/app/models.py` lines 143-148: no `category_id` field, required
`budget_item_id`. -/
structure TransactionCreate where
  amount : Int
  description : Option String
  transaction_date : Option Nat
  budget_item_id : Nat
  account_type : AccountType
deriving DecidableEq, Repr

/-- Modelled from the spec: the request schema actually read by
`create_transaction` in `src/app/transactions.py` (lines 28, 75, 102),
which requires an optional `budget_item_id` and an optional
`category_id`; the declaration carrying `category_id` is missing from
the `src/app/models.py` snapshot. -/
structure TransactionCreateSpec where
  amount : Int
  description : Option String
  transaction_date : Option Nat
  budget_item_id : Option Nat
  category_id : Option Nat
  account_type : AccountType
deriving DecidableEq, Repr

/-- `TransactionUpdate` request schema (`src/app/models.py` lines
160-165): every field optional; `none` models an unset field
(`model_dump(exclude_unset=True)`). -/
structure TransactionUpdate where
  amount : Option Int
  description : Option String
  transaction_date : Option Nat
  budget_item_id : Option Nat
  account_type : Option AccountType
deriving DecidableEq, Repr

/-- `BudgetItemCreate` request schema (`src/app/models.py` lines
107-110); also the payload type of `update_budget_item`. -/
structure BudgetItemCreate where
  amount : Int
  category_type : CategoryType
  category_id : Nat
deriving DecidableEq, Repr

/-- Error outcomes: the `HTTPException`s raised in route handlers, plus
`attributeError` for a Python `AttributeError` escaping a handler. -/
inductive Err where
  | badRequest | notFound | forbidden | attributeError
deriving DecidableEq, Repr

/-- The database state: one list per table, plus autoincrement counters. -/
structure State where
  categories : List Category
  budgets : List Budget
  budget_items : List BudgetItem
  transactions : List Transaction
  balances : List SavingsCategoryBalance
  next_transaction_id : Nat
  next_budget_item_id : Nat
  next_balance_id : Nat
deriving DecidableEq, Repr

/-- Python truthiness of an optional integer id: `None` and `0` are
falsy (`if not transaction_data.budget_item_id`, transactions.py:28). -/
def truthy : Option Nat → Bool
  | none => false
  | some n => n != 0

/-- `select(SavingsCategoryBalance).where(user_id == u, category_id == c)
.first()` (transactions.py lines 407-412, 441-446). -/
def findBalance (s : State) (user_id category_id : Nat) :
    Option SavingsCategoryBalance :=
  s.balances.find? (fun b => b.user_id == user_id && b.category_id == category_id)

/-- Mutation of a fetched ORM object: replace the first record matching
the filter, leaving the rest of the table unchanged. -/
def mutateFirst {α : Type} (p : α → Bool) (f : α → α) : List α → List α
  | [] => []
  | x :: rest => if p x then f x :: rest else x :: mutateFirst p f rest

/-- Replace the first balance record of the (user, category) pair. -/
def mutateFirstBalance (user_id category_id : Nat)
    (f : SavingsCategoryBalance → SavingsCategoryBalance)
    (l : List SavingsCategoryBalance) : List SavingsCategoryBalance :=
  mutateFirst (fun b => b.user_id == user_id && b.category_id == category_id) f l

/-- The three field assignments of transactions.py lines 424-428:
`funded_amount += amount; available_balance = funded - spent;
last_transaction_id = tx; updated_at = now`. -/
def fundingMutation (amount : Int) (transaction_id now : Nat)
    (b : SavingsCategoryBalance) : SavingsCategoryBalance :=
  let b := { b with funded_amount := b.funded_amount + amount }
  let b := { b with available_balance := b.funded_amount - b.spent_amount }
  { b with last_transaction_id := some transaction_id, updated_at := now }

/-- The three field assignments of transactions.py lines 459-463:
`spent_amount += amount; available_balance = funded - spent;
last_transaction_id = tx; updated_at = now`. -/
def spendingMutation (amount : Int) (transaction_id now : Nat)
    (b : SavingsCategoryBalance) : SavingsCategoryBalance :=
  let b := { b with spent_amount := b.spent_amount + amount }
  let b := { b with available_balance := b.funded_amount - b.spent_amount }
  { b with last_transaction_id := some transaction_id, updated_at := now }

/-- The zero balance record created when none exists (transactions.py
lines 414-422 and 448-457). -/
def zeroBalance (s : State) (user_id category_id now : Nat) :
    SavingsCategoryBalance :=
  { id := s.next_balance_id
    user_id := user_id
    category_id := category_id
    funded_amount := 0
    spent_amount := 0
    available_balance := 0
    last_transaction_id := none
    updated_at := now }

/-- `_update_savings_balance_for_funding` (transactions.py lines
398-430): get-or-create the balance record, then apply the funding
mutation and commit. -/
def update_savings_balance_for_funding (s : State)
    (user_id category_id : Nat) (amount : Int)
    (transaction_id now : Nat) : State :=
  match findBalance s user_id category_id with
  | some _ =>
      let f := fundingMutation amount transaction_id now
      { s with balances := mutateFirstBalance user_id category_id f s.balances }
  | none =>
      let b := fundingMutation amount transaction_id now
        (zeroBalance s user_id category_id now)
      { s with balances := s.balances ++ [b]
               next_balance_id := s.next_balance_id + 1 }

/-- `_update_savings_balance_for_spending` (transactions.py lines
432-465): get-or-create the balance record (creation allows a negative
balance), then apply the spending mutation and commit. -/
def update_savings_balance_for_spending (s : State)
    (user_id category_id : Nat) (amount : Int)
    (transaction_id now : Nat) : State :=
  match findBalance s user_id category_id with
  | some _ =>
      let f := spendingMutation amount transaction_id now
      { s with balances := mutateFirstBalance user_id category_id f s.balances }
  | none =>
      let b := spendingMutation amount transaction_id now
        (zeroBalance s user_id category_id now)
      { s with balances := s.balances ++ [b]
               next_balance_id := s.next_balance_id + 1 }

/-- `session.get(Transaction, id)`. -/
def findTransaction (s : State) (tid : Nat) : Option Transaction :=
  s.transactions.find? (fun t => t.id == tid)

/-- `session.get(BudgetItem, id)`. -/
def findBudgetItem (s : State) (biid : Nat) : Option BudgetItem :=
  s.budget_items.find? (fun i => i.id == biid)

/-- `session.get(Category, id)`. -/
def findCategory (s : State) (cid : Nat) : Option Category :=
  s.categories.find? (fun c => c.id == cid)

/-- `session.get(Budget, id)`. -/
def findBudget (s : State) (bid : Nat) : Option Budget :=
  s.budgets.find? (fun b => b.id == bid)

/-- `create_transaction` (transactions.py lines 17-119), over the
spec-modelled request schema.  Returns the HTTP outcome together with
the state at the point the handler finished or raised. -/
def create_transaction (s : State) (d : TransactionCreateSpec)
    (uid now : Nat) : Except Err Transaction × State :=
  match d.account_type with
  | .checking =>
      if !truthy d.budget_item_id then (.error .badRequest, s) else
      match findBudgetItem s (d.budget_item_id.getD 0) with
      | none => (.error .notFound, s)
      | some budget_item =>
          match findBudget s budget_item.budget_id with
          | none => (.error .attributeError, s)
          | some budget =>
              if budget.user_id ≠ uid then (.error .forbidden, s) else
              let t : Transaction :=
                { id := s.next_transaction_id
                  amount := d.amount
                  description := d.description
                  transaction_date := d.transaction_date.getD now
                  account_type := d.account_type
                  is_active := true
                  created_at := now
                  updated_at := now
                  deleted_at := none
                  budget_item_id := d.budget_item_id
                  category_id := none
                  user_id := uid }
              let s₁ := { s with transactions := s.transactions ++ [t]
                                 next_transaction_id := s.next_transaction_id + 1 }
              let s₂ :=
                if budget_item.category_type = .savings then
                  update_savings_balance_for_funding s₁ uid
                    budget_item.category_id t.amount t.id now
                else s₁
              (.ok t, s₂)
  | .savings =>
      if !truthy d.category_id then (.error .badRequest, s) else
      match findCategory s (d.category_id.getD 0) with
      | none => (.error .notFound, s)
      | some category =>
          if category.user_id ≠ uid then (.error .forbidden, s) else
          let t : Transaction :=
            { id := s.next_transaction_id
              amount := d.amount
              description := d.description
              transaction_date := d.transaction_date.getD now
              account_type := d.account_type
              is_active := true
              created_at := now
              updated_at := now
              deleted_at := none
              budget_item_id := none
              category_id := d.category_id
              user_id := uid }
          let s₁ := { s with transactions := s.transactions ++ [t]
                             next_transaction_id := s.next_transaction_id + 1 }
          let s₂ := update_savings_balance_for_spending s₁ uid
            (d.category_id.getD 0) t.amount t.id now
          (.ok t, s₂)

/-- `create_transaction` against the `TransactionCreate` schema exactly
as declared in `src/app/models.py`: the checking branch behaves as the
handler does, while the savings branch reads
`transaction_data.category_id` (transactions.py line 75), an attribute
`TransactionCreate` does not declare, so it raises `AttributeError`
before touching any state. -/
def create_transaction_src (s : State) (d : TransactionCreate)
    (uid now : Nat) : Except Err Transaction × State :=
  match d.account_type with
  | .checking =>
      create_transaction s
        { amount := d.amount
          description := d.description
          transaction_date := d.transaction_date
          budget_item_id := some d.budget_item_id
          category_id := none
          account_type := .checking } uid now
  | .savings => (.error .attributeError, s)

/-- `get_transaction` (transactions.py lines 183-204): read-only. -/
def get_transaction (s : State) (tid uid : Nat) : Except Err Transaction :=
  match findTransaction s tid with
  | none => .error .notFound
  | some t =>
      if t.user_id ≠ uid then .error .forbidden
      else .ok t

/-- Apply the provided fields of a `TransactionUpdate`
(`for field, value in update_data.items(): setattr(...)`,
transactions.py lines 252-255) and stamp `updated_at`. -/
def applyTransactionUpdate (t : Transaction) (d : TransactionUpdate)
    (now : Nat) : Transaction :=
  let t := { t with amount := d.amount.getD t.amount }
  let t := { t with description :=
    match d.description with | some x => some x | none => t.description }
  let t := { t with transaction_date :=
    d.transaction_date.getD t.transaction_date }
  let t := { t with budget_item_id :=
    match d.budget_item_id with | some b => some b | none => t.budget_item_id }
  let t := { t with account_type := d.account_type.getD t.account_type }
  { t with updated_at := now }

/-- The balance-adjustment block of `update_transaction`
(transactions.py lines 260-286), acting on the state after the
transaction row was rewritten.  `t_new` is the refreshed transaction. -/
def updateBalanceAdjust (s : State) (uid now : Nat)
    (old_amount : Int) (old_account_type : AccountType)
    (old_category_id old_budget_item_id : Option Nat)
    (t_new : Transaction) : State :=
  if old_account_type = .checking ∧ truthy old_budget_item_id then
    match findBudgetItem s (old_budget_item_id.getD 0) with
    | some old_budget_item =>
        if old_budget_item.category_type = .savings then
          let s₁ := update_savings_balance_for_funding s uid
            old_budget_item.category_id (-old_amount) t_new.id now
          if truthy t_new.budget_item_id then
            match findBudgetItem s₁ (t_new.budget_item_id.getD 0) with
            | some new_budget_item =>
                if new_budget_item.category_type = .savings then
                  update_savings_balance_for_funding s₁ uid
                    new_budget_item.category_id t_new.amount t_new.id now
                else s₁
            | none => s₁
          else s₁
        else s
    | none => s
  else if old_account_type = .savings ∧ truthy old_category_id then
    let s₁ := update_savings_balance_for_spending s uid
      (old_category_id.getD 0) (-old_amount) t_new.id now
    if truthy t_new.category_id then
      update_savings_balance_for_spending s₁ uid
        (t_new.category_id.getD 0) t_new.amount t_new.id now
    else s₁
  else s

/-- The budget-item validation of `update_transaction` (transactions.py
lines 237-250): when the update provides a `budget_item_id`, it must
exist and belong to the current user's budget. -/
def update_item_check (s : State) (d : TransactionUpdate) (uid : Nat) :
    Except Err Unit :=
  match d.budget_item_id with
  | none => .ok ()
  | some biid =>
      match findBudgetItem s biid with
      | none => .error .notFound
      | some budget_item =>
          match findBudget s budget_item.budget_id with
          | none => .error .attributeError
          | some budget =>
              if budget.user_id ≠ uid then .error .forbidden
              else .ok ()

/-- `update_transaction` (transactions.py lines 206-287): ownership and
budget-item validation, field update, then the balance adjustment. -/
def update_transaction (s : State) (tid : Nat) (d : TransactionUpdate)
    (uid now : Nat) : Except Err Transaction × State :=
  match findTransaction s tid with
  | none => (.error .notFound, s)
  | some t =>
      if t.user_id ≠ uid then (.error .forbidden, s) else
      let old_amount := t.amount
      let old_account_type := t.account_type
      let old_category_id := t.category_id
      let old_budget_item_id := t.budget_item_id
      match update_item_check s d uid with
      | .error e => (.error e, s)
      | .ok _ =>
          let t_new := applyTransactionUpdate t d now
          let tx₁ := mutateFirst (fun x => x.id == tid) (fun _ => t_new) s.transactions
          let s₁ := { s with transactions := tx₁ }
          let s₂ := updateBalanceAdjust s₁ uid now old_amount
            old_account_type old_category_id old_budget_item_id t_new
          (.ok t_new, s₂)

/-- Reversal of a transaction's balance effect: the negative of the
amount applied to the transaction's account/category.  This is both the
reversal block of `update_transaction` (transactions.py lines 261-267
and 276-280, with the old field values passed in) and, verbatim in
structure, the reversal block of `delete_transaction` (lines 310-323,
with the stored transaction's fields passed in). -/
def update_reverse_old (s : State) (uid now tid : Nat) (old_amount : Int)
    (old_account_type : AccountType)
    (old_category_id old_budget_item_id : Option Nat) : State :=
  if old_account_type = .checking ∧ truthy old_budget_item_id then
    match findBudgetItem s (old_budget_item_id.getD 0) with
    | some old_budget_item =>
        if old_budget_item.category_type = .savings then
          update_savings_balance_for_funding s uid
            old_budget_item.category_id (-old_amount) tid now
        else s
    | none => s
  else if old_account_type = .savings ∧ truthy old_category_id then
    update_savings_balance_for_spending s uid
      (old_category_id.getD 0) (-old_amount) tid now
  else s

/-- `delete_transaction` (transactions.py lines 289-333): reverse the
balance effect, then soft-delete the row. -/
def delete_transaction (s : State) (tid uid now : Nat) :
    Except Err Unit × State :=
  match findTransaction s tid with
  | none => (.error .notFound, s)
  | some t =>
      if t.user_id ≠ uid then (.error .forbidden, s) else
      let s₁ := update_reverse_old s uid now t.id t.amount t.account_type
        t.category_id t.budget_item_id
      let t_del := { t with is_active := false
                            deleted_at := some now
                            updated_at := now }
      let tx₁ := mutateFirst (fun x => x.id == tid) (fun _ => t_del) s₁.transactions
      (.ok (), { s₁ with transactions := tx₁ })

/-- Response shape of `get_category_balance`; `id` and `updated_at` are
absent from the zero-balance fallback dict (transactions.py 520-528). -/
structure CategoryBalanceRead where
  id : Option Nat
  category_id : Nat
  category_name : String
  funded_amount : Int
  spent_amount : Int
  available_balance : Int
  updated_at : Option Nat
deriving DecidableEq, Repr

/-- `get_category_balance` (transactions.py lines 497-538): 404 when the
category is missing or foreign-owned, a zero balance when no record
exists, the stored record otherwise.  Read-only. -/
def get_category_balance (s : State) (category_id uid : Nat) :
    Except Err CategoryBalanceRead :=
  match findCategory s category_id with
  | none => .error .notFound
  | some category =>
      if category.user_id ≠ uid then .error .notFound else
      match findBalance s uid category_id with
      | none =>
          .ok { id := none
                category_id := category_id
                category_name := category.name
                funded_amount := 0
                spent_amount := 0
                available_balance := 0
                updated_at := none }
      | some balance =>
          .ok { id := some balance.id
                category_id := balance.category_id
                category_name := category.name
                funded_amount := balance.funded_amount
                spent_amount := balance.spent_amount
                available_balance := balance.available_balance
                updated_at := some balance.updated_at }

/-- `create_budget_item` (budget_items.py lines 15-52): 404 when the
budget is missing or foreign-owned; update the amount of an existing
active item with the same (category_id, category_type); insert a fresh
active item otherwise. -/
def create_budget_item (s : State) (budget_id : Nat)
    (d : BudgetItemCreate) (uid : Nat) : Except Err BudgetItem × State :=
  match findBudget s budget_id with
  | none => (.error .notFound, s)
  | some budget =>
      if budget.user_id ≠ uid then (.error .notFound, s) else
      let matching : BudgetItem → Bool := fun i =>
        i.budget_id == budget_id && i.category_id == d.category_id &&
        decide (i.category_type = d.category_type) && i.is_active
      match s.budget_items.find? matching with
      | some existing_item =>
          let e := { existing_item with amount := d.amount }
          let items₁ := mutateFirst matching (fun _ => e) s.budget_items
          (.ok e, { s with budget_items := items₁ })
      | none =>
          let item : BudgetItem :=
            { id := s.next_budget_item_id
              amount := d.amount
              category_type := d.category_type
              is_active := true
              budget_id := budget_id
              category_id := d.category_id }
          (.ok item, { s with budget_items := s.budget_items ++ [item]
                              next_budget_item_id := s.next_budget_item_id + 1 })

/-- `update_budget_item` (budget_items.py lines 70-97): 404 on missing
or foreign-owned budget, or missing or mismatched item; then every field
of `BudgetItemCreate` is written onto the item (all three fields are
required, so `exclude_unset` never excludes any). -/
def update_budget_item (s : State) (budget_id item_id : Nat)
    (d : BudgetItemCreate) (uid : Nat) : Except Err BudgetItem × State :=
  match findBudget s budget_id with
  | none => (.error .notFound, s)
  | some budget =>
      if budget.user_id ≠ uid then (.error .notFound, s) else
      match findBudgetItem s item_id with
      | none => (.error .notFound, s)
      | some db_item =>
          if db_item.budget_id ≠ budget_id then (.error .notFound, s) else
          let item := { db_item with amount := d.amount
                                     category_type := d.category_type
                                     category_id := d.category_id }
          let items₁ := mutateFirst (fun x => x.id == item_id) (fun _ => item) s.budget_items
          (.ok item, { s with budget_items := items₁ })

/-- `delete_budget_item` (budget_items.py lines 99-120): hard delete. -/
def delete_budget_item (s : State) (budget_id item_id : Nat) (uid : Nat) :
    Except Err Unit × State :=
  match findBudget s budget_id with
  | none => (.error .notFound, s)
  | some budget =>
      if budget.user_id ≠ uid then (.error .notFound, s) else
      match findBudgetItem s item_id with
      | none => (.error .notFound, s)
      | some item =>
          if item.budget_id ≠ budget_id then (.error .notFound, s) else
          (.ok (), { s with budget_items :=
            s.budget_items.eraseP (fun x => x.id == item_id) })

/-- A transaction mutation, for reasoning about operation sequences. -/
inductive TxOp where
  | create (d : TransactionCreateSpec) (uid now : Nat)
  | update (tid : Nat) (d : TransactionUpdate) (uid now : Nat)
  | delete (tid uid now : Nat)

/-- The state reached by one transaction operation (successful or not). -/
def applyTxOp (s : State) : TxOp → State
  | .create d uid now => (create_transaction s d uid now).2
  | .update tid d uid now => (update_transaction s tid d uid now).2
  | .delete tid uid now => (delete_transaction s tid uid now).2

/-- Run a sequence of transaction operations. -/
def runTxOps (s : State) (ops : List TxOp) : State :=
  ops.foldl applyTxOp s

/-- Funded amount of a (user, category) pair, read as zero when no
balance record exists (the convention of `get_category_balance`). -/
def fundedOf (s : State) (u c : Nat) : Int :=
  ((findBalance s u c).map (fun b => b.funded_amount)).getD 0

/-- Spent amount of a (user, category) pair, read as zero when absent. -/
def spentOf (s : State) (u c : Nat) : Int :=
  ((findBalance s u c).map (fun b => b.spent_amount)).getD 0

/-- `last_transaction_id` of a (user, category) pair. -/
def lastTxOf (s : State) (u c : Nat) : Option Nat :=
  (findBalance s u c).bind (fun b => b.last_transaction_id)

/-- Available balance of a (user, category) pair, read as zero when
absent (the convention of `get_category_balance`). -/
def availableOf (s : State) (u c : Nat) : Int :=
  ((findBalance s u c).map (fun b => b.available_balance)).getD 0

/-- The spec invariant: every stored balance record satisfies
`available_balance = funded_amount - spent_amount`. -/
def BalanceInv (s : State) : Prop :=
  ∀ b ∈ s.balances, b.available_balance = b.funded_amount - b.spent_amount

instance (s : State) : Decidable (BalanceInv s) := by
  unfold BalanceInv; infer_instance

/-- The new effect as the code actually applies it (transactions.py
lines 268-274 and 281-285): selected by the OLD account type's branch —
new funding only inside the old checking-with-savings-item branch, new
spending only inside the old savings branch. -/
def update_apply_new_old_branch (s : State) (uid now : Nat)
    (old_account_type : AccountType)
    (old_category_id old_budget_item_id : Option Nat)
    (t_new : Transaction) : State :=
  if old_account_type = .checking ∧ truthy old_budget_item_id then
    match findBudgetItem s (old_budget_item_id.getD 0) with
    | some old_budget_item =>
        if old_budget_item.category_type = .savings then
          (if truthy t_new.budget_item_id then
            match findBudgetItem s (t_new.budget_item_id.getD 0) with
            | some new_budget_item =>
                if new_budget_item.category_type = .savings then
                  update_savings_balance_for_funding s uid
                    new_budget_item.category_id t_new.amount t_new.id now
                else s
            | none => s
          else s)
        else s
    | none => s
  else if old_account_type = .savings ∧ truthy old_category_id then
    if truthy t_new.category_id then
      update_savings_balance_for_spending s uid
        (t_new.category_id.getD 0) t_new.amount t_new.id now
    else s
  else s

/-- Modelled from the spec's words, for comparison with the code: "the
new effect applied under the new account type and category" — funding
when the updated transaction is a checking transaction on a savings-type
budget item, spending when it is a savings transaction with a
category. -/
def spec_apply_new (s : State) (uid now : Nat) (t_new : Transaction) :
    State :=
  match t_new.account_type with
  | .checking =>
      if truthy t_new.budget_item_id then
        match findBudgetItem s (t_new.budget_item_id.getD 0) with
        | some new_budget_item =>
            if new_budget_item.category_type = .savings then
              update_savings_balance_for_funding s uid
                new_budget_item.category_id t_new.amount t_new.id now
            else s
        | none => s
      else s
  | .savings =>
      if truthy t_new.category_id then
        update_savings_balance_for_spending s uid
          (t_new.category_id.getD 0) t_new.amount t_new.id now
      else s

/-- Modelled from the spec's words, for comparison with the code:
`update_transaction` as claim C4 states it — identical validation and
row rewrite, but with the balance block reversing the old effect and
then applying the new effect under the NEW account type/category. -/
def update_transaction_spec (s : State) (tid : Nat) (d : TransactionUpdate)
    (uid now : Nat) : Except Err Transaction × State :=
  match findTransaction s tid with
  | none => (.error .notFound, s)
  | some t =>
      if t.user_id ≠ uid then (.error .forbidden, s) else
      match update_item_check s d uid with
      | .error e => (.error e, s)
      | .ok _ =>
          let t_new := applyTransactionUpdate t d now
          let tx₁ := mutateFirst (fun x => x.id == tid) (fun _ => t_new) s.transactions
          let s₁ := { s with transactions := tx₁ }
          let s₂ := update_reverse_old s₁ uid now t_new.id t.amount
            t.account_type t.category_id t.budget_item_id
          let s₃ := spec_apply_new s₂ uid now t_new
          (.ok t_new, s₃)

/-- At most one active budget item per (budget, category_id,
category_type): no two distinct list entries are both active with the
same budget, category and category type. -/
def ItemsUnique (l : List BudgetItem) : Prop :=
  l.Pairwise (fun a b => ¬(a.is_active = true ∧ b.is_active = true ∧
    a.budget_id = b.budget_id ∧ a.category_id = b.category_id ∧
    a.category_type = b.category_type))

instance (l : List BudgetItem) : Decidable (ItemsUnique l) := by
  unfold ItemsUnique; infer_instance

/-- A small concrete database used by the closed witness and
counterexample theorems: one user (id 1) with two categories, one
budget, a savings-type budget item (id 5, category 1) and a
monthly-type budget item (id 6, category 2). -/
def baseState : State :=
  { categories := [⟨1, "Vacation", true, 1⟩, ⟨2, "Emergency", true, 1⟩]
    budgets := [⟨1, 1, 2025, "Budget 2025-01", true, 1⟩]
    budget_items := [⟨5, 100, .savings, true, 1, 1⟩, ⟨6, 50, .monthly, true, 1, 2⟩]
    transactions := []
    balances := []
    next_transaction_id := 10
    next_budget_item_id := 7
    next_balance_id := 1 }

/-- A checking-account funding request against budget item 5. -/
def exCreateChecking : TransactionCreateSpec :=
  { amount := 25, description := none, transaction_date := none
    budget_item_id := some 5, category_id := none, account_type := .checking }

/-- A savings-account spending request against category 1. -/
def exCreateSavings : TransactionCreateSpec :=
  { amount := 7, description := none, transaction_date := none
    budget_item_id := none, category_id := some 1, account_type := .savings }

/-- `baseState` extended with a second savings-type budget item (id 7,
category 2) and an existing savings transaction (id 10, amount 10,
category 1, user 1): the starting point of the update counterexample. -/
def c4State : State :=
  { baseState with
      budget_items := baseState.budget_items ++ [⟨7, 10, .savings, true, 1, 2⟩]
      transactions := [⟨10, 10, none, 90, .savings, true, 90, 90, none, none, some 1, 1⟩]
      next_transaction_id := 11
      next_budget_item_id := 8 }

/-- The update that changes transaction 10 from the savings account to
the checking account, pointing it at savings-type budget item 7. -/
def c4Update : TransactionUpdate :=
  { amount := some 20, description := none, transaction_date := none
    budget_item_id := some 7, account_type := some .checking }

/-- `c4State` extended with a budget (id 2) owned by user 2 and one of
its items (id 9): used to exercise the forbidden paths. -/
def c7State : State :=
  { c4State with
      budgets := c4State.budgets ++ [⟨2, 1, 2025, "Other", true, 2⟩]
      budget_items := c4State.budget_items ++ [⟨9, 5, .monthly, true, 2, 1⟩]
      next_budget_item_id := 10 }

/-- Two active monthly items on distinct categories of budget 1: the
starting point of the budget-item uniqueness counterexample. -/
def c10State : State :=
  { baseState with
      budget_items := [⟨5, 100, .monthly, true, 1, 1⟩, ⟨6, 50, .monthly, true, 1, 2⟩] }

/-- The `update_budget_item` payload that moves item 6 onto category 1
with the same category type as item 5. -/
def c10Update : BudgetItemCreate :=
  { amount := 9, category_type := .monthly, category_id := 1 }

/-! ### List-level lemmas about `mutateFirst` -/

theorem mem_of_mem_mutateFirst {α : Type} {p : α → Bool} {f : α → α}
    {l : List α} {b : α} (hb : b ∈ mutateFirst p f l) :
    b ∈ l ∨ ∃ x ∈ l, b = f x := by
  induction l with
  | nil => simp [mutateFirst] at hb
  | cons x rest ih =>
      rw [mutateFirst] at hb
      by_cases hp : p x
      · rw [if_pos hp] at hb
        rcases List.mem_cons.1 hb with h | h
        · exact Or.inr ⟨x, List.mem_cons_self x rest, h⟩
        · exact Or.inl (List.mem_cons_of_mem x h)
      · rw [if_neg hp] at hb
        rcases List.mem_cons.1 hb with h | h
        · exact Or.inl (h ▸ List.mem_cons_self x rest)
        · rcases ih h with h' | ⟨y, hy, hyy⟩
          · exact Or.inl (List.mem_cons_of_mem x h')
          · exact Or.inr ⟨y, List.mem_cons_of_mem x hy, hyy⟩

theorem length_mutateFirst {α : Type} (p : α → Bool) (f : α → α)
    (l : List α) : (mutateFirst p f l).length = l.length := by
  induction l with
  | nil => rfl
  | cons x rest ih =>
      rw [mutateFirst]
      by_cases hp : p x
      · rw [if_pos hp]; rfl
      · rw [if_neg hp]; simpa using ih

theorem find?_mutateFirst_same {α : Type} {p : α → Bool} {f : α → α}
    (hpf : ∀ x, p (f x) = p x) (l : List α) :
    (mutateFirst p f l).find? p = (l.find? p).map f := by
  induction l with
  | nil => rfl
  | cons x rest ih =>
      rw [mutateFirst]
      by_cases hp : p x
      · rw [if_pos hp, List.find?_cons_of_pos _ ((hpf x).trans (by simp [hp])),
          List.find?_cons_of_pos _ hp]
        rfl
      · rw [if_neg hp, List.find?_cons_of_neg _ (by simp [hpf x, hp]),
          List.find?_cons_of_neg _ hp]
        exact ih

theorem find?_mutateFirst_other {α : Type} {p q : α → Bool} {f : α → α}
    (hqf : ∀ x, q (f x) = q x) (hdisj : ∀ x, p x = true → q x = false)
    (l : List α) : (mutateFirst p f l).find? q = l.find? q := by
  induction l with
  | nil => rfl
  | cons x rest ih =>
      rw [mutateFirst]
      by_cases hp : p x
      · have hqx : q x = false := hdisj x (by simpa using hp)
        rw [if_pos hp, List.find?_cons_of_neg _ (by simp [hqf x, hqx]),
          List.find?_cons_of_neg _ (by simp [hqx])]
      · rw [if_neg hp]
        by_cases hq : q x
        · rw [List.find?_cons_of_pos _ hq, List.find?_cons_of_pos _ hq]
        · rw [List.find?_cons_of_neg _ hq, List.find?_cons_of_neg _ hq]
          exact ih

theorem find?_mutateFirst_replace {α : Type} {p : α → Bool} {b : α}
    {l : List α} (hb : p b = true) (hl : (l.find? p).isSome) :
    (mutateFirst p (fun _ => b) l).find? p = some b := by
  induction l with
  | nil => simp [List.find?] at hl
  | cons x rest ih =>
      rw [mutateFirst]
      by_cases hp : p x
      · rw [if_pos hp, List.find?_cons_of_pos _ hb]
      · rw [if_neg hp, List.find?_cons_of_neg _ hp]
        rw [List.find?_cons_of_neg _ hp] at hl
        exact ih hl

/-! ### The balance helpers touch only the `balances` table -/

theorem fund_transactions (s : State) (u c : Nat) (a : Int) (tx now : Nat) :
    (update_savings_balance_for_funding s u c a tx now).transactions =
      s.transactions := by
  unfold update_savings_balance_for_funding
  split <;> rfl

theorem fund_budget_items (s : State) (u c : Nat) (a : Int) (tx now : Nat) :
    (update_savings_balance_for_funding s u c a tx now).budget_items =
      s.budget_items := by
  unfold update_savings_balance_for_funding
  split <;> rfl

theorem fund_budgets (s : State) (u c : Nat) (a : Int) (tx now : Nat) :
    (update_savings_balance_for_funding s u c a tx now).budgets = s.budgets := by
  unfold update_savings_balance_for_funding
  split <;> rfl

theorem fund_categories (s : State) (u c : Nat) (a : Int) (tx now : Nat) :
    (update_savings_balance_for_funding s u c a tx now).categories =
      s.categories := by
  unfold update_savings_balance_for_funding
  split <;> rfl

theorem spend_transactions (s : State) (u c : Nat) (a : Int) (tx now : Nat) :
    (update_savings_balance_for_spending s u c a tx now).transactions =
      s.transactions := by
  unfold update_savings_balance_for_spending
  split <;> rfl

theorem spend_budget_items (s : State) (u c : Nat) (a : Int) (tx now : Nat) :
    (update_savings_balance_for_spending s u c a tx now).budget_items =
      s.budget_items := by
  unfold update_savings_balance_for_spending
  split <;> rfl

theorem spend_budgets (s : State) (u c : Nat) (a : Int) (tx now : Nat) :
    (update_savings_balance_for_spending s u c a tx now).budgets = s.budgets := by
  unfold update_savings_balance_for_spending
  split <;> rfl

theorem spend_categories (s : State) (u c : Nat) (a : Int) (tx now : Nat) :
    (update_savings_balance_for_spending s u c a tx now).categories =
      s.categories := by
  unfold update_savings_balance_for_spending
  split <;> rfl

/-! ### How the balance helpers act on `findBalance` -/

theorem findBalance_fund_same (s : State) (u c : Nat) (a : Int) (tx now : Nat) :
    findBalance (update_savings_balance_for_funding s u c a tx now) u c =
      some (fundingMutation a tx now
        ((findBalance s u c).getD (zeroBalance s u c now))) := by
  unfold update_savings_balance_for_funding
  cases h : findBalance s u c with
  | some b =>
      simp only [h]
      unfold findBalance mutateFirstBalance
      dsimp only
      rw [@find?_mutateFirst_same SavingsCategoryBalance
        (fun b => b.user_id == u && b.category_id == c)
        (fundingMutation a tx now) (fun x => rfl) s.balances]
      unfold findBalance at h
      rw [h]
      rfl
  | none =>
      simp only [h]
      unfold findBalance at h ⊢
      dsimp only
      rw [List.find?_append, h, Option.none_or]
      have hb : ((fundingMutation a tx now (zeroBalance s u c now)).user_id == u
          && ((fundingMutation a tx now (zeroBalance s u c now)).category_id == c)) = true := by
        show (u == u && (c == c)) = true
        simp
      simp only [List.find?, hb]
      rfl

theorem findBalance_fund_other (s : State) (u c u' c' : Nat) (a : Int)
    (tx now : Nat) (h : ¬(u' = u ∧ c' = c)) :
    findBalance (update_savings_balance_for_funding s u c a tx now) u' c' =
      findBalance s u' c' := by
  unfold update_savings_balance_for_funding
  cases hf : findBalance s u c with
  | some b =>
      simp only [hf]
      unfold findBalance mutateFirstBalance
      dsimp only
      apply @find?_mutateFirst_other SavingsCategoryBalance
        (fun b => b.user_id == u && b.category_id == c)
        (fun b => b.user_id == u' && b.category_id == c')
        (fundingMutation a tx now) (fun x => rfl)
      intro x hx
      simp only [Bool.and_eq_true, beq_iff_eq] at hx
      cases hqx : (x.user_id == u' && x.category_id == c') with
      | false => rfl
      | true =>
          simp only [Bool.and_eq_true, beq_iff_eq] at hqx
          exact absurd ⟨by rw [← hqx.1, hx.1], by rw [← hqx.2, hx.2]⟩ h
  | none =>
      simp only [hf]
      unfold findBalance
      dsimp only
      rw [List.find?_append]
      have hb : ((fundingMutation a tx now (zeroBalance s u c now)).user_id == u'
          && ((fundingMutation a tx now (zeroBalance s u c now)).category_id == c')) = false := by
        show (u == u' && (c == c')) = false
        rcases not_and_or.1 h with h' | h'
        · have hu : (u == u') = false := by
            simpa [beq_eq_false_iff_ne] using Ne.symm h'
          simp [hu]
        · have hc : (c == c') = false := by
            simpa [beq_eq_false_iff_ne] using Ne.symm h'
          simp [hc]
      have hone : List.find?
          (fun b => b.user_id == u' && b.category_id == c')
          [fundingMutation a tx now (zeroBalance s u c now)] = none := by
        simp [List.find?, hb]
      rw [hone, Option.or_none]

theorem findBalance_spend_same (s : State) (u c : Nat) (a : Int) (tx now : Nat) :
    findBalance (update_savings_balance_for_spending s u c a tx now) u c =
      some (spendingMutation a tx now
        ((findBalance s u c).getD (zeroBalance s u c now))) := by
  unfold update_savings_balance_for_spending
  cases h : findBalance s u c with
  | some b =>
      simp only [h]
      unfold findBalance mutateFirstBalance
      dsimp only
      rw [@find?_mutateFirst_same SavingsCategoryBalance
        (fun b => b.user_id == u && b.category_id == c)
        (spendingMutation a tx now) (fun x => rfl) s.balances]
      unfold findBalance at h
      rw [h]
      rfl
  | none =>
      simp only [h]
      unfold findBalance at h ⊢
      dsimp only
      rw [List.find?_append, h, Option.none_or]
      have hb : ((spendingMutation a tx now (zeroBalance s u c now)).user_id == u
          && ((spendingMutation a tx now (zeroBalance s u c now)).category_id == c)) = true := by
        show (u == u && (c == c)) = true
        simp
      simp only [List.find?, hb]
      rfl

theorem findBalance_spend_other (s : State) (u c u' c' : Nat) (a : Int)
    (tx now : Nat) (h : ¬(u' = u ∧ c' = c)) :
    findBalance (update_savings_balance_for_spending s u c a tx now) u' c' =
      findBalance s u' c' := by
  unfold update_savings_balance_for_spending
  cases hf : findBalance s u c with
  | some b =>
      simp only [hf]
      unfold findBalance mutateFirstBalance
      dsimp only
      apply @find?_mutateFirst_other SavingsCategoryBalance
        (fun b => b.user_id == u && b.category_id == c)
        (fun b => b.user_id == u' && b.category_id == c')
        (spendingMutation a tx now) (fun x => rfl)
      intro x hx
      simp only [Bool.and_eq_true, beq_iff_eq] at hx
      cases hqx : (x.user_id == u' && x.category_id == c') with
      | false => rfl
      | true =>
          simp only [Bool.and_eq_true, beq_iff_eq] at hqx
          exact absurd ⟨by rw [← hqx.1, hx.1], by rw [← hqx.2, hx.2]⟩ h
  | none =>
      simp only [hf]
      unfold findBalance
      dsimp only
      rw [List.find?_append]
      have hb : ((spendingMutation a tx now (zeroBalance s u c now)).user_id == u'
          && ((spendingMutation a tx now (zeroBalance s u c now)).category_id == c')) = false := by
        show (u == u' && (c == c')) = false
        rcases not_and_or.1 h with h' | h'
        · have hu : (u == u') = false := by
            simpa [beq_eq_false_iff_ne] using Ne.symm h'
          simp [hu]
        · have hc : (c == c') = false := by
            simpa [beq_eq_false_iff_ne] using Ne.symm h'
          simp [hc]
      have hone : List.find?
          (fun b => b.user_id == u' && b.category_id == c')
          [spendingMutation a tx now (zeroBalance s u c now)] = none := by
        simp [List.find?, hb]
      rw [hone, Option.or_none]

/-! ### Observable effects of the balance helpers -/

theorem fundedOf_fund (s : State) (u c u' c' : Nat) (a : Int) (tx now : Nat) :
    fundedOf (update_savings_balance_for_funding s u c a tx now) u' c' =
      if u' = u ∧ c' = c then fundedOf s u' c' + a else fundedOf s u' c' := by
  by_cases h : u' = u ∧ c' = c
  · obtain ⟨rfl, rfl⟩ := h
    rw [if_pos ⟨rfl, rfl⟩]
    unfold fundedOf
    rw [findBalance_fund_same]
    cases hb : findBalance s u' c' with
    | some b => simp [fundingMutation]
    | none => simp [fundingMutation, zeroBalance]
  · rw [if_neg h]
    unfold fundedOf
    rw [findBalance_fund_other s u c u' c' a tx now h]

theorem spentOf_fund (s : State) (u c u' c' : Nat) (a : Int) (tx now : Nat) :
    spentOf (update_savings_balance_for_funding s u c a tx now) u' c' =
      spentOf s u' c' := by
  by_cases h : u' = u ∧ c' = c
  · obtain ⟨rfl, rfl⟩ := h
    unfold spentOf
    rw [findBalance_fund_same]
    cases hb : findBalance s u' c' with
    | some b => simp [fundingMutation]
    | none => simp [fundingMutation, zeroBalance]
  · unfold spentOf
    rw [findBalance_fund_other s u c u' c' a tx now h]

theorem lastTxOf_fund_same (s : State) (u c : Nat) (a : Int) (tx now : Nat) :
    lastTxOf (update_savings_balance_for_funding s u c a tx now) u c =
      some tx := by
  unfold lastTxOf
  rw [findBalance_fund_same]
  rfl

theorem spentOf_spend (s : State) (u c u' c' : Nat) (a : Int) (tx now : Nat) :
    spentOf (update_savings_balance_for_spending s u c a tx now) u' c' =
      if u' = u ∧ c' = c then spentOf s u' c' + a else spentOf s u' c' := by
  by_cases h : u' = u ∧ c' = c
  · obtain ⟨rfl, rfl⟩ := h
    rw [if_pos ⟨rfl, rfl⟩]
    unfold spentOf
    rw [findBalance_spend_same]
    cases hb : findBalance s u' c' with
    | some b => simp [spendingMutation]
    | none => simp [spendingMutation, zeroBalance]
  · rw [if_neg h]
    unfold spentOf
    rw [findBalance_spend_other s u c u' c' a tx now h]

theorem fundedOf_spend (s : State) (u c u' c' : Nat) (a : Int) (tx now : Nat) :
    fundedOf (update_savings_balance_for_spending s u c a tx now) u' c' =
      fundedOf s u' c' := by
  by_cases h : u' = u ∧ c' = c
  · obtain ⟨rfl, rfl⟩ := h
    unfold fundedOf
    rw [findBalance_spend_same]
    cases hb : findBalance s u' c' with
    | some b => simp [spendingMutation]
    | none => simp [spendingMutation, zeroBalance]
  · unfold fundedOf
    rw [findBalance_spend_other s u c u' c' a tx now h]

/-! ### Preservation of the balance invariant -/

theorem balanceInv_fund (s : State) (u c : Nat) (a : Int) (tx now : Nat)
    (h : BalanceInv s) :
    BalanceInv (update_savings_balance_for_funding s u c a tx now) := by
  unfold update_savings_balance_for_funding
  cases hf : findBalance s u c with
  | some b =>
      dsimp only
      intro x hx
      unfold mutateFirstBalance at hx
      rcases mem_of_mem_mutateFirst hx with hmem | ⟨y, _, rfl⟩
      · exact h x hmem
      · rfl
  | none =>
      dsimp only
      intro x hx
      rcases List.mem_append.1 hx with hmem | hmem
      · exact h x hmem
      · rw [List.mem_singleton.1 hmem]
        rfl

theorem balanceInv_spend (s : State) (u c : Nat) (a : Int) (tx now : Nat)
    (h : BalanceInv s) :
    BalanceInv (update_savings_balance_for_spending s u c a tx now) := by
  unfold update_savings_balance_for_spending
  cases hf : findBalance s u c with
  | some b =>
      dsimp only
      intro x hx
      unfold mutateFirstBalance at hx
      rcases mem_of_mem_mutateFirst hx with hmem | ⟨y, _, rfl⟩
      · exact h x hmem
      · rfl
  | none =>
      dsimp only
      intro x hx
      rcases List.mem_append.1 hx with hmem | hmem
      · exact h x hmem
      · rw [List.mem_singleton.1 hmem]
        rfl

theorem balanceInv_create (s : State) (d : TransactionCreateSpec)
    (uid now : Nat) (h : BalanceInv s) :
    BalanceInv (create_transaction s d uid now).2 := by
  unfold create_transaction
  repeat' split
  all_goals try dsimp only
  all_goals first
    | exact h
    | exact balanceInv_fund _ _ _ _ _ _ h
    | exact balanceInv_spend _ _ _ _ _ _ h

theorem balanceInv_adjust (s : State) (uid now : Nat) (old_amount : Int)
    (old_account_type : AccountType)
    (old_category_id old_budget_item_id : Option Nat) (t_new : Transaction)
    (h : BalanceInv s) :
    BalanceInv (updateBalanceAdjust s uid now old_amount old_account_type
      old_category_id old_budget_item_id t_new) := by
  unfold updateBalanceAdjust
  repeat' split
  all_goals try dsimp only
  all_goals repeat' split
  all_goals first
    | exact h
    | exact balanceInv_fund _ _ _ _ _ _ h
    | exact balanceInv_spend _ _ _ _ _ _ h
    | exact balanceInv_fund _ _ _ _ _ _ (balanceInv_fund _ _ _ _ _ _ h)
    | exact balanceInv_spend _ _ _ _ _ _ (balanceInv_spend _ _ _ _ _ _ h)

theorem balanceInv_update (s : State) (tid : Nat) (d : TransactionUpdate)
    (uid now : Nat) (h : BalanceInv s) :
    BalanceInv (update_transaction s tid d uid now).2 := by
  unfold update_transaction
  repeat' split
  all_goals try dsimp only
  all_goals first
    | exact h
    | exact balanceInv_adjust _ _ _ _ _ _ _ _ h

theorem balanceInv_reverse_old (s : State) (uid now tid : Nat)
    (old_amount : Int) (old_account_type : AccountType)
    (old_category_id old_budget_item_id : Option Nat) (h : BalanceInv s) :
    BalanceInv (update_reverse_old s uid now tid old_amount
      old_account_type old_category_id old_budget_item_id) := by
  unfold update_reverse_old
  repeat' split
  all_goals first
    | exact h
    | exact balanceInv_fund _ _ _ _ _ _ h
    | exact balanceInv_spend _ _ _ _ _ _ h

theorem balanceInv_delete (s : State) (tid uid now : Nat) (h : BalanceInv s) :
    BalanceInv (delete_transaction s tid uid now).2 := by
  unfold delete_transaction
  repeat' split
  all_goals try dsimp only
  all_goals first
    | exact h
    | exact balanceInv_reverse_old _ _ _ _ _ _ _ _ h

theorem balanceInv_applyTxOp (s : State) (op : TxOp) (h : BalanceInv s) :
    BalanceInv (applyTxOp s op) := by
  cases op with
  | create d uid now => exact balanceInv_create s d uid now h
  | update tid d uid now => exact balanceInv_update s tid d uid now h
  | delete tid uid now => exact balanceInv_delete s tid uid now h

/-! ### Claim theorems -/

/-- C1: for every user and savings category, after any sequence of
transaction create, update and delete operations, every existing
`SavingsCategoryBalance` record satisfies
`available_balance = funded_amount - spent_amount` (provided every
record of the starting state does, which holds in particular for a
state with no balance records). -/
theorem c1_balance_invariant_any_sequence (s : State) (ops : List TxOp)
    (h : BalanceInv s) : BalanceInv (runTxOps s ops) := by
  induction ops generalizing s with
  | nil => exact h
  | cons op rest ih => exact ih (applyTxOp s op) (balanceInv_applyTxOp s op h)

/-- Witness for C1 at a concrete state and operation sequence. -/
theorem c1_balance_invariant_any_sequence_witness :
    BalanceInv baseState ∧
    BalanceInv (runTxOps baseState
      [TxOp.create exCreateChecking 1 100,
       TxOp.create exCreateSavings 1 101,
       TxOp.delete 10 1 102]) :=
  ⟨by decide, c1_balance_invariant_any_sequence baseState
    [TxOp.create exCreateChecking 1 100,
     TxOp.create exCreateSavings 1 101,
     TxOp.delete 10 1 102] (by decide)⟩

/-- C2: a checking-account create whose budget item is savings-type
increments `funded_amount` of the (user, item category) balance by
exactly the transaction amount, leaves `spent_amount` unchanged, and
sets `last_transaction_id` to the new transaction's id. -/
theorem c2_checking_create_funds_savings_category
    (s : State) (d : TransactionCreateSpec) (uid now biid : Nat)
    (bi : BudgetItem) (bud : Budget)
    (hacct : d.account_type = .checking)
    (hbi : d.budget_item_id = some biid) (hbi0 : biid ≠ 0)
    (hfind : findBudgetItem s biid = some bi)
    (hsav : bi.category_type = .savings)
    (hbud : findBudget s bi.budget_id = some bud)
    (howner : bud.user_id = uid) :
    (∃ t, (create_transaction s d uid now).1 = .ok t ∧
        t.id = s.next_transaction_id) ∧
    fundedOf (create_transaction s d uid now).2 uid bi.category_id =
      fundedOf s uid bi.category_id + d.amount ∧
    spentOf (create_transaction s d uid now).2 uid bi.category_id =
      spentOf s uid bi.category_id ∧
    lastTxOf (create_transaction s d uid now).2 uid bi.category_id =
      some s.next_transaction_id := by
  have ht : truthy d.budget_item_id = true := by
    rw [hbi]; simpa [truthy] using hbi0
  have hg : d.budget_item_id.getD 0 = biid := by rw [hbi]; rfl
  simp only [create_transaction, hacct, ht, Bool.not_true, Bool.false_eq_true,
    if_false, hg, hfind, hbud, howner, ne_eq, not_true_eq_false, hsav, if_true]
  refine ⟨⟨_, rfl, rfl⟩, ?_, ?_, ?_⟩
  · rw [fundedOf_fund, if_pos ⟨rfl, rfl⟩]; rfl
  · rw [spentOf_fund]; rfl
  · exact lastTxOf_fund_same _ _ _ _ _ _

/-- Witness for C2 at a concrete state and request. -/
theorem c2_checking_create_funds_savings_category_witness :
    (∃ t, (create_transaction baseState exCreateChecking 1 100).1 = .ok t ∧
        t.id = baseState.next_transaction_id) ∧
    fundedOf (create_transaction baseState exCreateChecking 1 100).2 1 1 =
      fundedOf baseState 1 1 + exCreateChecking.amount ∧
    spentOf (create_transaction baseState exCreateChecking 1 100).2 1 1 =
      spentOf baseState 1 1 ∧
    lastTxOf (create_transaction baseState exCreateChecking 1 100).2 1 1 =
      some baseState.next_transaction_id :=
  c2_checking_create_funds_savings_category baseState exCreateChecking 1 100 5
    ⟨5, 100, .savings, true, 1, 1⟩ ⟨1, 1, 2025, "Budget 2025-01", true, 1⟩
    (by decide) (by decide) (by decide) (by decide) (by decide) (by decide)
    (by decide)

/-- C8: a savings-account spend is not limited by the available
balance: creating a savings transaction of 7 against category 1 of
`baseState` — a category with no balance record, never funded — creates
the record and leaves `available_balance = -7 < 0`. -/
theorem c8_savings_spend_not_limited_by_balance :
    findBalance baseState 1 1 = none ∧
    fundedOf (create_transaction baseState exCreateSavings 1 100).2 1 1 = 0 ∧
    spentOf (create_transaction baseState exCreateSavings 1 100).2 1 1 = 7 ∧
    availableOf (create_transaction baseState exCreateSavings 1 100).2 1 1 = -7 ∧
    availableOf (create_transaction baseState exCreateSavings 1 100).2 1 1 < 0 := by
  decide

/-- C6: (a) the first funding or spending event for a (user, category)
pair with no balance record stores exactly the mutation of the zero
record — a record created with `funded_amount = 0` and
`spent_amount = 0` before the event's amount is applied (so funding
stores `0 + a` funded and `0` spent, spending stores `0` funded and
`0 + a` spent); (b) reading the balance of an owned category with no
record returns zero funded, spent and available amounts rather than an
error. -/
theorem c6_balance_created_on_demand_with_zeros :
    (∀ (s : State) (u c : Nat) (a : Int) (tx now : Nat),
      findBalance s u c = none →
      findBalance (update_savings_balance_for_funding s u c a tx now) u c =
        some (fundingMutation a tx now (zeroBalance s u c now)) ∧
      findBalance (update_savings_balance_for_spending s u c a tx now) u c =
        some (spendingMutation a tx now (zeroBalance s u c now)) ∧
      (zeroBalance s u c now).funded_amount = 0 ∧
      (zeroBalance s u c now).spent_amount = 0 ∧
      (fundingMutation a tx now (zeroBalance s u c now)).funded_amount = 0 + a ∧
      (fundingMutation a tx now (zeroBalance s u c now)).spent_amount = 0 ∧
      (spendingMutation a tx now (zeroBalance s u c now)).funded_amount = 0 ∧
      (spendingMutation a tx now (zeroBalance s u c now)).spent_amount = 0 + a) ∧
    (∀ (s : State) (cid uid : Nat) (cat : Category),
      findCategory s cid = some cat → cat.user_id = uid →
      findBalance s uid cid = none →
      get_category_balance s cid uid =
        .ok { id := none, category_id := cid, category_name := cat.name
              funded_amount := 0, spent_amount := 0, available_balance := 0
              updated_at := none }) := by
  constructor
  · intro s u c a tx now hnone
    refine ⟨?_, ?_, rfl, rfl, rfl, rfl, rfl, rfl⟩
    · rw [findBalance_fund_same, hnone]; rfl
    · rw [findBalance_spend_same, hnone]; rfl
  · intro s cid uid cat hcat howner hnone
    simp only [get_category_balance, hcat, howner, ne_eq, not_true_eq_false,
      if_false, hnone]

/-- Witness for C6 at a concrete state. -/
theorem c6_balance_created_on_demand_with_zeros_witness :
    (findBalance baseState 1 2 = none ∧
      findBalance (update_savings_balance_for_funding baseState 1 2 30 10 100) 1 2 =
        some (fundingMutation 30 10 100 (zeroBalance baseState 1 2 100))) ∧
    (findCategory baseState 2 = some ⟨2, "Emergency", true, 1⟩ ∧
      get_category_balance baseState 2 1 =
        .ok { id := none, category_id := 2, category_name := "Emergency"
              funded_amount := 0, spent_amount := 0, available_balance := 0
              updated_at := none }) :=
  ⟨⟨by decide,
    (c6_balance_created_on_demand_with_zeros.1 baseState 1 2 30 10 100
      (by decide)).1⟩,
   ⟨by decide,
    c6_balance_created_on_demand_with_zeros.2 baseState 2 1
      ⟨2, "Emergency", true, 1⟩ (by decide) (by decide) (by decide)⟩⟩

theorem reverse_old_transactions (s : State) (uid now tid : Nat)
    (old_amount : Int) (old_account_type : AccountType)
    (old_category_id old_budget_item_id : Option Nat) :
    (update_reverse_old s uid now tid old_amount old_account_type
      old_category_id old_budget_item_id).transactions = s.transactions := by
  unfold update_reverse_old
  repeat' split
  all_goals first
    | rfl
    | apply fund_transactions
    | apply spend_transactions

theorem reverse_old_budget_items (s : State) (uid now tid : Nat)
    (old_amount : Int) (old_account_type : AccountType)
    (old_category_id old_budget_item_id : Option Nat) :
    (update_reverse_old s uid now tid old_amount old_account_type
      old_category_id old_budget_item_id).budget_items = s.budget_items := by
  unfold update_reverse_old
  repeat' split
  all_goals first
    | rfl
    | apply fund_budget_items
    | apply spend_budget_items

/-- C3 (code side): against the `TransactionCreate` schema exactly as
declared in `src/app/models.py` (no `category_id` field), every
savings-account create fails with an `AttributeError` at the
`transaction_data.category_id` read (transactions.py line 75) and
leaves the state untouched, instead of succeeding with a
category-linked transaction. -/
theorem c3_savings_create_fails_on_src_schema (s : State)
    (d : TransactionCreate) (uid now : Nat)
    (h : d.account_type = .savings) :
    create_transaction_src s d uid now = (.error .attributeError, s) := by
  unfold create_transaction_src
  simp only [h]

/-- Witness for C3 at a concrete request. -/
theorem c3_savings_create_fails_on_src_schema_witness :
    create_transaction_src baseState
      { amount := 7, description := none, transaction_date := none
        budget_item_id := 5, account_type := .savings } 1 100 =
      (.error .attributeError, baseState) :=
  c3_savings_create_fails_on_src_schema baseState
    { amount := 7, description := none, transaction_date := none
      budget_item_id := 5, account_type := .savings } 1 100 (by decide)

/-- C9: `delete_transaction` is a soft delete: it answers ok, the row is
still present (same row count, still found by id), `is_active` becomes
false, `deleted_at` and `updated_at` are set to the deletion instant,
and every other stored field of the transaction is unchanged (the stored
record is exactly the old record with only those three fields
rewritten). -/
theorem c9_delete_is_soft_delete (s : State) (t : Transaction)
    (tid uid now : Nat)
    (hfind : findTransaction s tid = some t) (howner : t.user_id = uid) :
    (delete_transaction s tid uid now).1 = .ok () ∧
    findTransaction (delete_transaction s tid uid now).2 tid =
      some { t with is_active := false, deleted_at := some now
                    updated_at := now } ∧
    (delete_transaction s tid uid now).2.transactions.length =
      s.transactions.length := by
  have hpt : (t.id == tid) = true := by
    have := List.find?_some hfind
    simpa using this
  unfold delete_transaction
  simp only [hfind, howner, ne_eq, not_true_eq_false, if_false]
  refine ⟨trivial, ?_, ?_⟩
  · unfold findTransaction
    dsimp only
    rw [reverse_old_transactions]
    apply find?_mutateFirst_replace
    · simpa using hpt
    · unfold findTransaction at hfind
      rw [hfind]
      rfl
  · dsimp only
    rw [length_mutateFirst, reverse_old_transactions]

/-- Witness for C9 at a concrete state. -/
theorem c9_delete_is_soft_delete_witness :
    (delete_transaction c4State 10 1 200).1 = .ok () ∧
    findTransaction (delete_transaction c4State 10 1 200).2 10 =
      some { id := 10, amount := 10, description := none
             transaction_date := 90, account_type := .savings
             is_active := false, created_at := 90, updated_at := 200
             deleted_at := some 200, budget_item_id := none
             category_id := some 1, user_id := 1 } ∧
    (delete_transaction c4State 10 1 200).2.transactions.length =
      c4State.transactions.length :=
  c9_delete_is_soft_delete c4State
    ⟨10, 10, none, 90, .savings, true, 90, 90, none, none, some 1, 1⟩
    10 1 200 (by decide) (by decide)

theorem mem_of_mem_mutateFirst_strong {α : Type} {p : α → Bool} {f : α → α}
    {l : List α} {b : α} (hb : b ∈ mutateFirst p f l) :
    b ∈ l ∨ ∃ x ∈ l, p x = true ∧ b = f x := by
  induction l with
  | nil => simp [mutateFirst] at hb
  | cons x rest ih =>
      rw [mutateFirst] at hb
      by_cases hp : p x
      · rw [if_pos hp] at hb
        rcases List.mem_cons.1 hb with h | h
        · exact Or.inr ⟨x, List.mem_cons_self x rest, hp, h⟩
        · exact Or.inl (List.mem_cons_of_mem x h)
      · rw [if_neg hp] at hb
        rcases List.mem_cons.1 hb with h | h
        · exact Or.inl (h ▸ List.mem_cons_self x rest)
        · rcases ih h with h' | ⟨y, hy, hpy, hyy⟩
          · exact Or.inl (List.mem_cons_of_mem x h')
          · exact Or.inr ⟨y, List.mem_cons_of_mem x hy, hpy, hyy⟩

theorem pairwise_mutateFirst {α : Type} {R : α → α → Prop} {p : α → Bool}
    {f : α → α}
    (hf : ∀ x, p x = true →
      (∀ y, R x y → R (f x) y) ∧ (∀ y, R y x → R y (f x)))
    {l : List α} (h : l.Pairwise R) : (mutateFirst p f l).Pairwise R := by
  induction l with
  | nil => exact List.Pairwise.nil
  | cons x rest ih =>
      rw [List.pairwise_cons] at h
      rw [mutateFirst]
      by_cases hp : p x
      · rw [if_pos hp]
        exact List.pairwise_cons.2
          ⟨fun y hy => (hf x hp).1 y (h.1 y hy), h.2⟩
      · rw [if_neg hp]
        refine List.pairwise_cons.2 ⟨?_, ih h.2⟩
        intro y hy
        rcases mem_of_mem_mutateFirst_strong hy with hmem | ⟨z, hz, hpz, rfl⟩
        · exact h.1 y hmem
        · exact (hf z hpz).2 x (h.1 z hz)

/-- C10 (counterexample): the claimed uniqueness is NOT preserved by
`update_budget_item`.  `c10State` has two active monthly items (item 5
on category 1, item 6 on category 2) of budget 1, satisfying uniqueness;
updating item 6 to category 1 with the same category type succeeds and
leaves two active items of budget 1 with the (category 1, monthly)
pair. -/
theorem c10_update_breaks_uniqueness_counterexample :
    ItemsUnique c10State.budget_items ∧
    (update_budget_item c10State 1 6 c10Update 1).1 =
      .ok ⟨6, 9, .monthly, true, 1, 1⟩ ∧
    ¬ ItemsUnique (update_budget_item c10State 1 6 c10Update 1).2.budget_items := by
  refine ⟨by decide, by rfl, ?_⟩
  decide

/-- C10 (amended): at most one active budget item per
(budget, category_id, category_type) triple is preserved by
`create_budget_item` — which updates the amount of an existing active
matching item instead of inserting a duplicate — and by
`delete_budget_item`; `update_budget_item`, however, can rewrite an
item's `category_id`/`category_type` onto another active item's pair
and so does not preserve it. -/
theorem c10_create_and_delete_preserve_uniqueness
    (s : State) (budget_id item_id : Nat) (d : BudgetItemCreate) (uid : Nat)
    (h : ItemsUnique s.budget_items) :
    ItemsUnique (create_budget_item s budget_id d uid).2.budget_items ∧
    ItemsUnique (delete_budget_item s budget_id item_id uid).2.budget_items := by
  constructor
  · unfold create_budget_item
    cases hb : findBudget s budget_id with
    | none => exact h
    | some budget =>
        dsimp only
        by_cases howner : budget.user_id ≠ uid
        · rw [if_pos howner]; exact h
        · rw [if_neg howner]
          cases hex : s.budget_items.find? (fun i =>
              i.budget_id == budget_id && i.category_id == d.category_id &&
              decide (i.category_type = d.category_type) && i.is_active) with
          | some existing_item =>
              dsimp only
              apply pairwise_mutateFirst ?_ h
              intro x hpx
              simp only [Bool.and_eq_true, beq_iff_eq, decide_eq_true_eq] at hpx
              have hex_p := List.find?_some hex
              simp only [Bool.and_eq_true, beq_iff_eq, decide_eq_true_eq] at hex_p
              obtain ⟨⟨⟨hxb, hxc⟩, hxt⟩, hxa⟩ := hpx
              obtain ⟨⟨⟨heb, hec⟩, het⟩, hea⟩ := hex_p
              constructor
              · intro y hR hcon
                dsimp only at hcon
                apply hR
                exact ⟨hxa, hcon.2.1,
                  by rw [hxb, ← heb]; exact hcon.2.2.1,
                  by rw [hxc, ← hec]; exact hcon.2.2.2.1,
                  by rw [hxt, ← het]; exact hcon.2.2.2.2⟩
              · intro y hR hcon
                dsimp only at hcon
                apply hR
                exact ⟨hcon.1, hxa,
                  hcon.2.2.1.trans (heb.trans hxb.symm),
                  hcon.2.2.2.1.trans (hec.trans hxc.symm),
                  hcon.2.2.2.2.trans (het.trans hxt.symm)⟩
          | none =>
              dsimp only
              rw [ItemsUnique, List.pairwise_append]
              refine ⟨h, List.pairwise_singleton _ _, ?_⟩
              intro a ha b hbmem hcon
              rw [List.mem_singleton] at hbmem
              subst hbmem
              have := List.find?_eq_none.1 hex a ha
              apply this
              simp only [Bool.and_eq_true, beq_iff_eq, decide_eq_true_eq]
              exact ⟨⟨⟨hcon.2.2.1, hcon.2.2.2.1⟩, hcon.2.2.2.2⟩, hcon.1⟩
  · unfold delete_budget_item
    repeat' split
    all_goals try exact h
    exact List.Pairwise.sublist (List.eraseP_sublist _) h

/-- Witness for the amended C10 at a concrete state. -/
theorem c10_create_and_delete_preserve_uniqueness_witness :
    ItemsUnique baseState.budget_items ∧
    ItemsUnique (create_budget_item baseState 1
      ⟨40, .monthly, 1⟩ 1).2.budget_items ∧
    ItemsUnique (delete_budget_item baseState 1 6 1).2.budget_items :=
  ⟨by decide,
   (c10_create_and_delete_preserve_uniqueness baseState 1 6
     ⟨40, .monthly, 1⟩ 1 (by decide)).1,
   (c10_create_and_delete_preserve_uniqueness baseState 1 6
     ⟨40, .monthly, 1⟩ 1 (by decide)).2⟩

/-- C7: every transaction create/get/update/delete that references a
missing transaction, budget item or category fails with not-found; one
that references an entity owned by another user fails with forbidden;
and in every such failure the returned state is exactly the input state
(no transaction row and no balance record is created or modified). -/
theorem c7_not_found_forbidden_no_state_change :
    (∀ (s : State) (d : TransactionCreateSpec) (uid now biid : Nat),
      d.account_type = .checking → d.budget_item_id = some biid → biid ≠ 0 →
      findBudgetItem s biid = none →
      create_transaction s d uid now = (.error .notFound, s)) ∧
    (∀ (s : State) (d : TransactionCreateSpec) (uid now biid : Nat)
      (bi : BudgetItem) (bud : Budget),
      d.account_type = .checking → d.budget_item_id = some biid → biid ≠ 0 →
      findBudgetItem s biid = some bi → findBudget s bi.budget_id = some bud →
      bud.user_id ≠ uid →
      create_transaction s d uid now = (.error .forbidden, s)) ∧
    (∀ (s : State) (d : TransactionCreateSpec) (uid now cid : Nat),
      d.account_type = .savings → d.category_id = some cid → cid ≠ 0 →
      findCategory s cid = none →
      create_transaction s d uid now = (.error .notFound, s)) ∧
    (∀ (s : State) (d : TransactionCreateSpec) (uid now cid : Nat)
      (cat : Category),
      d.account_type = .savings → d.category_id = some cid → cid ≠ 0 →
      findCategory s cid = some cat → cat.user_id ≠ uid →
      create_transaction s d uid now = (.error .forbidden, s)) ∧
    (∀ (s : State) (tid uid : Nat),
      findTransaction s tid = none →
      get_transaction s tid uid = .error .notFound) ∧
    (∀ (s : State) (tid uid : Nat) (t : Transaction),
      findTransaction s tid = some t → t.user_id ≠ uid →
      get_transaction s tid uid = .error .forbidden) ∧
    (∀ (s : State) (tid uid now : Nat) (d : TransactionUpdate),
      findTransaction s tid = none →
      update_transaction s tid d uid now = (.error .notFound, s)) ∧
    (∀ (s : State) (tid uid now : Nat) (d : TransactionUpdate)
      (t : Transaction),
      findTransaction s tid = some t → t.user_id ≠ uid →
      update_transaction s tid d uid now = (.error .forbidden, s)) ∧
    (∀ (s : State) (tid uid now biid : Nat) (d : TransactionUpdate)
      (t : Transaction),
      findTransaction s tid = some t → t.user_id = uid →
      d.budget_item_id = some biid → findBudgetItem s biid = none →
      update_transaction s tid d uid now = (.error .notFound, s)) ∧
    (∀ (s : State) (tid uid now biid : Nat) (d : TransactionUpdate)
      (t : Transaction) (bi : BudgetItem) (bud : Budget),
      findTransaction s tid = some t → t.user_id = uid →
      d.budget_item_id = some biid → findBudgetItem s biid = some bi →
      findBudget s bi.budget_id = some bud → bud.user_id ≠ uid →
      update_transaction s tid d uid now = (.error .forbidden, s)) ∧
    (∀ (s : State) (tid uid now : Nat),
      findTransaction s tid = none →
      delete_transaction s tid uid now = (.error .notFound, s)) ∧
    (∀ (s : State) (tid uid now : Nat) (t : Transaction),
      findTransaction s tid = some t → t.user_id ≠ uid →
      delete_transaction s tid uid now = (.error .forbidden, s)) := by
  refine ⟨?_, ?_, ?_, ?_, ?_, ?_, ?_, ?_, ?_, ?_, ?_, ?_⟩
  · intro s d uid now biid hacct hbi hbi0 hfind
    have ht : truthy d.budget_item_id = true := by
      rw [hbi]; simpa [truthy] using hbi0
    have hg : d.budget_item_id.getD 0 = biid := by rw [hbi]; rfl
    simp only [create_transaction, hacct, ht, Bool.not_true,
      Bool.false_eq_true, if_false, hg, hfind]
  · intro s d uid now biid bi bud hacct hbi hbi0 hfind hbud howner
    have ht : truthy d.budget_item_id = true := by
      rw [hbi]; simpa [truthy] using hbi0
    have hg : d.budget_item_id.getD 0 = biid := by rw [hbi]; rfl
    simp only [create_transaction, hacct, ht, Bool.not_true,
      Bool.false_eq_true, if_false, hg, hfind, hbud]
    rw [if_pos howner]
  · intro s d uid now cid hacct hci hci0 hfind
    have ht : truthy d.category_id = true := by
      rw [hci]; simpa [truthy] using hci0
    have hg : d.category_id.getD 0 = cid := by rw [hci]; rfl
    simp only [create_transaction, hacct, ht, Bool.not_true,
      Bool.false_eq_true, if_false, hg, hfind]
  · intro s d uid now cid cat hacct hci hci0 hfind howner
    have ht : truthy d.category_id = true := by
      rw [hci]; simpa [truthy] using hci0
    have hg : d.category_id.getD 0 = cid := by rw [hci]; rfl
    simp only [create_transaction, hacct, ht, Bool.not_true,
      Bool.false_eq_true, if_false, hg, hfind]
    rw [if_pos howner]
  · intro s tid uid hfind
    simp only [get_transaction, hfind]
  · intro s tid uid t hfind howner
    simp only [get_transaction, hfind]
    rw [if_pos howner]
  · intro s tid uid now d hfind
    simp only [update_transaction, hfind]
  · intro s tid uid now d t hfind howner
    simp only [update_transaction, hfind]
    rw [if_pos howner]
  · intro s tid uid now biid d t hfind howner hbi hbifind
    simp only [update_transaction, update_item_check, hfind, howner, ne_eq,
      not_true_eq_false, if_false, hbi, hbifind]
  · intro s tid uid now biid d t bi bud hfind howner hbi hbifind hbud hforb
    simp only [update_transaction, update_item_check, hfind, howner, ne_eq,
      not_true_eq_false, if_false, hbi, hbifind, hbud]
    rw [if_pos hforb]
  · intro s tid uid now hfind
    simp only [delete_transaction, hfind]
  · intro s tid uid now t hfind howner
    simp only [delete_transaction, hfind]
    rw [if_pos howner]

/-- Witness for C7: each failure mode exercised at a concrete input. -/
theorem c7_not_found_forbidden_no_state_change_witness :
    create_transaction baseState
      ⟨25, none, none, some 99, none, .checking⟩ 1 100 =
      (.error .notFound, baseState) ∧
    create_transaction baseState
      ⟨25, none, none, some 5, none, .checking⟩ 2 100 =
      (.error .forbidden, baseState) ∧
    create_transaction baseState
      ⟨25, none, none, none, some 99, .savings⟩ 1 100 =
      (.error .notFound, baseState) ∧
    create_transaction baseState
      ⟨25, none, none, none, some 1, .savings⟩ 2 100 =
      (.error .forbidden, baseState) ∧
    get_transaction baseState 99 1 = .error .notFound ∧
    get_transaction c4State 10 2 = .error .forbidden ∧
    update_transaction baseState 99
      ⟨some 1, none, none, none, none⟩ 1 100 =
      (.error .notFound, baseState) ∧
    update_transaction c4State 10
      ⟨some 1, none, none, none, none⟩ 2 100 =
      (.error .forbidden, c4State) ∧
    update_transaction c4State 10
      ⟨none, none, none, some 99, none⟩ 1 100 =
      (.error .notFound, c4State) ∧
    update_transaction c7State 10
      ⟨none, none, none, some 9, none⟩ 1 100 =
      (.error .forbidden, c7State) ∧
    delete_transaction baseState 99 1 100 = (.error .notFound, baseState) ∧
    delete_transaction c4State 10 2 100 = (.error .forbidden, c4State) :=
  ⟨c7_not_found_forbidden_no_state_change.1 baseState
      ⟨25, none, none, some 99, none, .checking⟩ 1 100 99
      (by decide) (by decide) (by decide) (by decide),
   c7_not_found_forbidden_no_state_change.2.1 baseState
      ⟨25, none, none, some 5, none, .checking⟩ 2 100 5
      ⟨5, 100, .savings, true, 1, 1⟩ ⟨1, 1, 2025, "Budget 2025-01", true, 1⟩
      (by decide) (by decide) (by decide) (by decide) (by decide) (by decide),
   c7_not_found_forbidden_no_state_change.2.2.1 baseState
      ⟨25, none, none, none, some 99, .savings⟩ 1 100 99
      (by decide) (by decide) (by decide) (by decide),
   c7_not_found_forbidden_no_state_change.2.2.2.1 baseState
      ⟨25, none, none, none, some 1, .savings⟩ 2 100 1
      ⟨1, "Vacation", true, 1⟩
      (by decide) (by decide) (by decide) (by decide) (by decide),
   c7_not_found_forbidden_no_state_change.2.2.2.2.1 baseState 99 1 (by decide),
   c7_not_found_forbidden_no_state_change.2.2.2.2.2.1 c4State 10 2
      ⟨10, 10, none, 90, .savings, true, 90, 90, none, none, some 1, 1⟩
      (by decide) (by decide),
   c7_not_found_forbidden_no_state_change.2.2.2.2.2.2.1 baseState 99 1 100
      ⟨some 1, none, none, none, none⟩ (by decide),
   c7_not_found_forbidden_no_state_change.2.2.2.2.2.2.2.1 c4State 10 2 100
      ⟨some 1, none, none, none, none⟩
      ⟨10, 10, none, 90, .savings, true, 90, 90, none, none, some 1, 1⟩
      (by decide) (by decide),
   c7_not_found_forbidden_no_state_change.2.2.2.2.2.2.2.2.1 c4State 10 1 100 99
      ⟨none, none, none, some 99, none⟩
      ⟨10, 10, none, 90, .savings, true, 90, 90, none, none, some 1, 1⟩
      (by decide) (by decide) (by decide) (by decide),
   c7_not_found_forbidden_no_state_change.2.2.2.2.2.2.2.2.2.1 c7State 10 1 100 9
      ⟨none, none, none, some 9, none⟩
      ⟨10, 10, none, 90, .savings, true, 90, 90, none, none, some 1, 1⟩
      ⟨9, 5, .monthly, true, 2, 1⟩ ⟨2, 1, 2025, "Other", true, 2⟩
      (by decide) (by decide) (by decide) (by decide) (by decide) (by decide),
   c7_not_found_forbidden_no_state_change.2.2.2.2.2.2.2.2.2.2.1 baseState 99 1
      100 (by decide),
   c7_not_found_forbidden_no_state_change.2.2.2.2.2.2.2.2.2.2.2 c4State 10 2
      100 ⟨10, 10, none, 90, .savings, true, 90, 90, none, none, some 1, 1⟩
      (by decide) (by decide)⟩

/-! ### Round-trip lemmas: apply then reverse -/

theorem findBudgetItem_fund (s : State) (u c : Nat) (a : Int) (tx now x : Nat) :
    findBudgetItem (update_savings_balance_for_funding s u c a tx now) x =
      findBudgetItem s x := by
  unfold findBudgetItem
  rw [fund_budget_items]

theorem findBudgetItem_spend (s : State) (u c : Nat) (a : Int) (tx now x : Nat) :
    findBudgetItem (update_savings_balance_for_spending s u c a tx now) x =
      findBudgetItem s x := by
  unfold findBudgetItem
  rw [spend_budget_items]

theorem find?_append_fresh (l : List Transaction) (t : Transaction)
    (hfresh : ∀ tr ∈ l, tr.id ≠ t.id) :
    (l ++ [t]).find? (fun x => x.id == t.id) = some t := by
  rw [List.find?_append]
  have h1 : l.find? (fun x => x.id == t.id) = none :=
    List.find?_eq_none.2 (fun x hx => by simpa using hfresh x hx)
  rw [h1, Option.none_or]
  simp [List.find?]

theorem fund_reverse_funded (s : State) (u c : Nat) (a : Int)
    (tx tx2 now now2 : Nat) (u2 c2 : Nat) :
    fundedOf (update_savings_balance_for_funding
      (update_savings_balance_for_funding s u c a tx now) u c (-a) tx2 now2)
        u2 c2 = fundedOf s u2 c2 := by
  rw [fundedOf_fund, fundedOf_fund]
  by_cases h : u2 = u ∧ c2 = c
  · rw [if_pos h, if_pos h, add_neg_cancel_right]
  · rw [if_neg h, if_neg h]

theorem fund_reverse_spent (s : State) (u c : Nat) (a : Int)
    (tx tx2 now now2 : Nat) (u2 c2 : Nat) :
    spentOf (update_savings_balance_for_funding
      (update_savings_balance_for_funding s u c a tx now) u c (-a) tx2 now2)
        u2 c2 = spentOf s u2 c2 := by
  rw [spentOf_fund, spentOf_fund]

theorem spend_reverse_spent (s : State) (u c : Nat) (a : Int)
    (tx tx2 now now2 : Nat) (u2 c2 : Nat) :
    spentOf (update_savings_balance_for_spending
      (update_savings_balance_for_spending s u c a tx now) u c (-a) tx2 now2)
        u2 c2 = spentOf s u2 c2 := by
  rw [spentOf_spend, spentOf_spend]
  by_cases h : u2 = u ∧ c2 = c
  · rw [if_pos h, if_pos h, add_neg_cancel_right]
  · rw [if_neg h, if_neg h]

theorem spend_reverse_funded (s : State) (u c : Nat) (a : Int)
    (tx tx2 now now2 : Nat) (u2 c2 : Nat) :
    fundedOf (update_savings_balance_for_spending
      (update_savings_balance_for_spending s u c a tx now) u c (-a) tx2 now2)
        u2 c2 = fundedOf s u2 c2 := by
  rw [fundedOf_spend, fundedOf_spend]

/-- C5: creating a transaction and then soft-deleting it is a round trip
on savings balances: for every successful create — checking (first
conjunct, with any budget-item category type) or savings (second
conjunct) — deleting the new transaction (id `s.next_transaction_id`,
fresh by hypothesis) restores the funded and spent amounts of every
(user, category) pair to their values before the create. -/
theorem c5_create_then_delete_round_trip :
    (∀ (s : State) (d : TransactionCreateSpec) (uid now now2 biid : Nat)
      (bi : BudgetItem) (bud : Budget),
      (∀ tr ∈ s.transactions, tr.id ≠ s.next_transaction_id) →
      d.account_type = .checking →
      d.budget_item_id = some biid → biid ≠ 0 →
      findBudgetItem s biid = some bi →
      findBudget s bi.budget_id = some bud → bud.user_id = uid →
      (delete_transaction (create_transaction s d uid now).2
          s.next_transaction_id uid now2).1 = .ok () ∧
      ∀ u c,
        fundedOf (delete_transaction (create_transaction s d uid now).2
          s.next_transaction_id uid now2).2 u c = fundedOf s u c ∧
        spentOf (delete_transaction (create_transaction s d uid now).2
          s.next_transaction_id uid now2).2 u c = spentOf s u c) ∧
    (∀ (s : State) (d : TransactionCreateSpec) (uid now now2 cid : Nat)
      (cat : Category),
      (∀ tr ∈ s.transactions, tr.id ≠ s.next_transaction_id) →
      d.account_type = .savings →
      d.category_id = some cid → cid ≠ 0 →
      findCategory s cid = some cat → cat.user_id = uid →
      (delete_transaction (create_transaction s d uid now).2
          s.next_transaction_id uid now2).1 = .ok () ∧
      ∀ u c,
        fundedOf (delete_transaction (create_transaction s d uid now).2
          s.next_transaction_id uid now2).2 u c = fundedOf s u c ∧
        spentOf (delete_transaction (create_transaction s d uid now).2
          s.next_transaction_id uid now2).2 u c = spentOf s u c) := by
  constructor
  · intro s d uid now now2 biid bi bud hfresh hacct hbi hbi0 hfind hbud howner
    have ht : truthy d.budget_item_id = true := by
      rw [hbi]; simpa [truthy] using hbi0
    have hg : d.budget_item_id.getD 0 = biid := by rw [hbi]; rfl
    simp only [create_transaction, hacct, ht, Bool.not_true, Bool.false_eq_true,
      if_false, hg, hfind, hbud, howner, ne_eq, not_true_eq_false, if_true]
    set t0 : Transaction :=
      ⟨s.next_transaction_id, d.amount, d.description, d.transaction_date.getD now,
       .checking, true, now, now, none, d.budget_item_id, none, uid⟩ with ht0
    set sA : State :=
      { s with transactions := s.transactions ++ [t0],
               next_transaction_id := s.next_transaction_id + 1 } with hsA
    have huser : t0.user_id = uid := by rw [ht0]
    have hacct0 : t0.account_type = AccountType.checking := by rw [ht0]
    have hbid0 : t0.budget_item_id = d.budget_item_id := by rw [ht0]
    have hfresh0 : ∀ tr ∈ s.transactions, tr.id ≠ t0.id := by
      intro tr htr
      rw [ht0]
      exact hfresh tr htr
    by_cases hsav : bi.category_type = CategoryType.savings
    · simp only [hsav, if_true]
      have hft : findTransaction (update_savings_balance_for_funding sA uid
          bi.category_id d.amount s.next_transaction_id now)
          s.next_transaction_id = some t0 := by
        unfold findTransaction
        rw [fund_transactions, hsA]
        exact find?_append_fresh s.transactions t0 hfresh0
      unfold delete_transaction
      simp only [hft, huser, ne_eq, not_true_eq_false, if_false]
      have hbiA : findBudgetItem (update_savings_balance_for_funding sA uid
          bi.category_id d.amount s.next_transaction_id now)
          (t0.budget_item_id.getD 0) = some bi := by
        rw [findBudgetItem_fund, hbid0, hg]
        exact hfind
      have hro : update_reverse_old (update_savings_balance_for_funding sA uid
          bi.category_id d.amount s.next_transaction_id now) uid now2 t0.id
          t0.amount t0.account_type t0.category_id t0.budget_item_id =
          update_savings_balance_for_funding
            (update_savings_balance_for_funding sA uid bi.category_id d.amount
              s.next_transaction_id now)
            uid bi.category_id (-t0.amount) t0.id now2 := by
        unfold update_reverse_old
        rw [if_pos ⟨hacct0, by rw [hbid0]; exact ht⟩]
        simp only [hbiA, hsav, if_true]
      refine ⟨trivial, fun u c => ?_⟩
      rw [hro]
      constructor
      · exact fund_reverse_funded sA uid bi.category_id d.amount
          s.next_transaction_id t0.id now now2 u c
      · exact fund_reverse_spent sA uid bi.category_id d.amount
          s.next_transaction_id t0.id now now2 u c
    · simp only [if_neg hsav]
      have hft : findTransaction sA s.next_transaction_id = some t0 := by
        unfold findTransaction
        rw [hsA]
        exact find?_append_fresh s.transactions t0 hfresh0
      unfold delete_transaction
      simp only [hft, huser, ne_eq, not_true_eq_false, if_false]
      have hbiA : findBudgetItem sA (t0.budget_item_id.getD 0) = some bi := by
        rw [hbid0, hg]
        exact hfind
      have hro : update_reverse_old sA uid now2 t0.id t0.amount t0.account_type
          t0.category_id t0.budget_item_id = sA := by
        unfold update_reverse_old
        rw [if_pos ⟨hacct0, by rw [hbid0]; exact ht⟩]
        simp only [hbiA, hsav, if_false]
      refine ⟨trivial, fun u c => ?_⟩
      rw [hro]
      exact ⟨rfl, rfl⟩
  · intro s d uid now now2 cid cat hfresh hacct hci hci0 hcat howner
    have ht : truthy d.category_id = true := by
      rw [hci]; simpa [truthy] using hci0
    have hg : d.category_id.getD 0 = cid := by rw [hci]; rfl
    simp only [create_transaction, hacct, ht, Bool.not_true, Bool.false_eq_true,
      if_false, hg, hcat, howner, ne_eq, not_true_eq_false, if_true]
    set t0 : Transaction :=
      ⟨s.next_transaction_id, d.amount, d.description, d.transaction_date.getD now,
       .savings, true, now, now, none, none, d.category_id, uid⟩ with ht0
    set sA : State :=
      { s with transactions := s.transactions ++ [t0],
               next_transaction_id := s.next_transaction_id + 1 } with hsA
    have huser : t0.user_id = uid := by rw [ht0]
    have hacct0 : t0.account_type = AccountType.savings := by rw [ht0]
    have hcid0 : t0.category_id = d.category_id := by rw [ht0]
    have hfresh0 : ∀ tr ∈ s.transactions, tr.id ≠ t0.id := by
      intro tr htr
      rw [ht0]
      exact hfresh tr htr
    have hft : findTransaction (update_savings_balance_for_spending sA uid cid
        d.amount s.next_transaction_id now) s.next_transaction_id = some t0 := by
      unfold findTransaction
      rw [spend_transactions, hsA]
      exact find?_append_fresh s.transactions t0 hfresh0
    unfold delete_transaction
    simp only [hft, huser, ne_eq, not_true_eq_false, if_false]
    have hro : update_reverse_old (update_savings_balance_for_spending sA uid cid
        d.amount s.next_transaction_id now) uid now2 t0.id t0.amount
        t0.account_type t0.category_id t0.budget_item_id =
        update_savings_balance_for_spending
          (update_savings_balance_for_spending sA uid cid d.amount
            s.next_transaction_id now)
          uid cid (-t0.amount) t0.id now2 := by
      unfold update_reverse_old
      rw [if_neg (by simp [hacct0])]
      rw [if_pos ⟨hacct0, by rw [hcid0]; exact ht⟩]
      rw [hcid0, hg]
    refine ⟨trivial, fun u c => ?_⟩
    rw [hro]
    constructor
    · exact spend_reverse_funded sA uid cid d.amount
        s.next_transaction_id t0.id now now2 u c
    · exact spend_reverse_spent sA uid cid d.amount
        s.next_transaction_id t0.id now now2 u c

/-- Witness for C5: the round trip at a concrete checking create and a
concrete savings create. -/
theorem c5_create_then_delete_round_trip_witness :
    ((delete_transaction (create_transaction baseState exCreateChecking 1 100).2
        10 1 101).1 = .ok () ∧
      fundedOf (delete_transaction
          (create_transaction baseState exCreateChecking 1 100).2
          10 1 101).2 1 1 = fundedOf baseState 1 1 ∧
      spentOf (delete_transaction
          (create_transaction baseState exCreateChecking 1 100).2
          10 1 101).2 1 1 = spentOf baseState 1 1) ∧
    ((delete_transaction (create_transaction baseState exCreateSavings 1 100).2
        10 1 101).1 = .ok () ∧
      fundedOf (delete_transaction
          (create_transaction baseState exCreateSavings 1 100).2
          10 1 101).2 1 1 = fundedOf baseState 1 1 ∧
      spentOf (delete_transaction
          (create_transaction baseState exCreateSavings 1 100).2
          10 1 101).2 1 1 = spentOf baseState 1 1) :=
  ⟨⟨(c5_create_then_delete_round_trip.1 baseState exCreateChecking 1 100 101 5
      ⟨5, 100, .savings, true, 1, 1⟩ ⟨1, 1, 2025, "Budget 2025-01", true, 1⟩
      (by decide) (by decide) (by decide) (by decide) (by decide) (by decide)
      (by decide)).1,
    ((c5_create_then_delete_round_trip.1 baseState exCreateChecking 1 100 101 5
      ⟨5, 100, .savings, true, 1, 1⟩ ⟨1, 1, 2025, "Budget 2025-01", true, 1⟩
      (by decide) (by decide) (by decide) (by decide) (by decide) (by decide)
      (by decide)).2 1 1).1,
    ((c5_create_then_delete_round_trip.1 baseState exCreateChecking 1 100 101 5
      ⟨5, 100, .savings, true, 1, 1⟩ ⟨1, 1, 2025, "Budget 2025-01", true, 1⟩
      (by decide) (by decide) (by decide) (by decide) (by decide) (by decide)
      (by decide)).2 1 1).2⟩,
   ⟨(c5_create_then_delete_round_trip.2 baseState exCreateSavings 1 100 101 1
      ⟨1, "Vacation", true, 1⟩
      (by decide) (by decide) (by decide) (by decide) (by decide)
      (by decide)).1,
    ((c5_create_then_delete_round_trip.2 baseState exCreateSavings 1 100 101 1
      ⟨1, "Vacation", true, 1⟩
      (by decide) (by decide) (by decide) (by decide) (by decide)
      (by decide)).2 1 1).1,
    ((c5_create_then_delete_round_trip.2 baseState exCreateSavings 1 100 101 1
      ⟨1, "Vacation", true, 1⟩
      (by decide) (by decide) (by decide) (by decide) (by decide)
      (by decide)).2 1 1).2⟩⟩

/-- The balance-adjustment block of `update_transaction` is exactly the
sequential composition "reverse the old effect first, then apply the new
effect selected by the OLD account type's branch". -/
theorem adjust_eq_reverse_then_apply (s : State) (uid now : Nat)
    (old_amount : Int) (oat : AccountType) (ocid obid : Option Nat)
    (t_new : Transaction) :
    updateBalanceAdjust s uid now old_amount oat ocid obid t_new =
      update_apply_new_old_branch
        (update_reverse_old s uid now t_new.id old_amount oat ocid obid)
        uid now oat ocid obid t_new := by
  unfold updateBalanceAdjust update_reverse_old update_apply_new_old_branch
  by_cases h1 : oat = AccountType.checking ∧ truthy obid = true
  · rw [if_pos h1, if_pos h1, if_pos h1]
    cases hfi : findBudgetItem s (obid.getD 0) with
    | none => simp only [hfi]
    | some obi =>
        simp only [hfi]
        by_cases hsav : obi.category_type = CategoryType.savings
        · simp only [hsav, if_true, findBudgetItem_fund, hfi]
        · simp only [hsav, if_false, hfi]
  · rw [if_neg h1, if_neg h1, if_neg h1]
    by_cases h2 : oat = AccountType.savings ∧ truthy ocid = true
    · rw [if_pos h2, if_pos h2, if_pos h2]
    · rw [if_neg h2, if_neg h2, if_neg h2]

/-- C4 (counterexample): the new effect is NOT applied under the new
account type.  Transaction 10 of `c4State` is a savings spend of 10 on
category 1; `c4Update` turns it into a checking transaction of 20 on
savings-type budget item 7 (category 2).  The claim (reverse old, then
apply new under the new account/category) would leave
spent(1,1) = -10 and funded(1,2) = 20 — the behaviour of
`update_transaction_spec`, written from the spec's words — but the code
leaves spent(1,1) = 10 and funded(1,2) = 0: it applied the new amount as
savings spending on category 1, the OLD branch. -/
theorem c4_new_effect_not_under_new_type_counterexample :
    (update_transaction c4State 10 c4Update 1 200).1 =
      .ok ⟨10, 20, none, 90, .checking, true, 90, 200, none, some 7, some 1, 1⟩ ∧
    spentOf (update_transaction c4State 10 c4Update 1 200).2 1 1 = 10 ∧
    fundedOf (update_transaction c4State 10 c4Update 1 200).2 1 2 = 0 ∧
    spentOf (update_transaction_spec c4State 10 c4Update 1 200).2 1 1 = -10 ∧
    fundedOf (update_transaction_spec c4State 10 c4Update 1 200).2 1 2 = 20 ∧
    (update_transaction c4State 10 c4Update 1 200).2.balances ≠
      (update_transaction_spec c4State 10 c4Update 1 200).2.balances := by
  refine ⟨by rfl, by decide, by decide, by decide, by decide, by decide⟩

/-- C4 (amended): for every successful update, the old transaction's
balance effect is reversed first (the negative of the old amount applied
to the old account/category's balance) and only then is the new effect
applied — but the new effect is selected by the OLD account type's
branch (`update_apply_new_old_branch`): new funding only when the old
transaction was a checking funding of a savings-type item and the new
budget item is also savings-type; new spending on the transaction's
category only when the old transaction was a savings spend.  When the
update changes the account type, the new effect is NOT applied under the
new account type. -/
theorem c4_update_reverses_then_applies_old_branch (s : State)
    (tid uid now : Nat) (d : TransactionUpdate) (t : Transaction)
    (hfind : findTransaction s tid = some t) (howner : t.user_id = uid)
    (hcheck : update_item_check s d uid = .ok ()) :
    (update_transaction s tid d uid now).1 =
      .ok (applyTransactionUpdate t d now) ∧
    (update_transaction s tid d uid now).2 =
      update_apply_new_old_branch
        (update_reverse_old
          { s with transactions := mutateFirst (fun x => x.id == tid) (fun _ => applyTransactionUpdate t d now) s.transactions }
          uid now (applyTransactionUpdate t d now).id t.amount t.account_type
          t.category_id t.budget_item_id)
        uid now t.account_type t.category_id t.budget_item_id
        (applyTransactionUpdate t d now) := by
  unfold update_transaction
  simp only [hfind, howner, ne_eq, not_true_eq_false, if_false, hcheck]
  exact ⟨trivial, adjust_eq_reverse_then_apply _ uid now t.amount t.account_type
    t.category_id t.budget_item_id (applyTransactionUpdate t d now)⟩

/-- Witness for the amended C4 at a concrete update that changes the
account type. -/
theorem c4_update_reverses_then_applies_old_branch_witness :
    (update_transaction c4State 10 c4Update 1 200).1 =
      .ok (applyTransactionUpdate
        ⟨10, 10, none, 90, .savings, true, 90, 90, none, none, some 1, 1⟩
        c4Update 200) ∧
    (update_transaction c4State 10 c4Update 1 200).2 =
      update_apply_new_old_branch
        (update_reverse_old
          { c4State with transactions := mutateFirst (fun x => x.id == 10) (fun _ => applyTransactionUpdate ⟨10, 10, none, 90, .savings, true, 90, 90, none, none, some 1, 1⟩ c4Update 200) c4State.transactions }
          1 200 (applyTransactionUpdate
            ⟨10, 10, none, 90, .savings, true, 90, 90, none, none, some 1, 1⟩
            c4Update 200).id 10 .savings (some 1) none)
        1 200 .savings (some 1) none
        (applyTransactionUpdate
          ⟨10, 10, none, 90, .savings, true, 90, 90, none, none, some 1, 1⟩
          c4Update 200) :=
  c4_update_reverses_then_applies_old_branch c4State 10 1 200 c4Update
    ⟨10, 10, none, 90, .savings, true, 90, 90, none, none, some 1, 1⟩
    (by decide) (by decide) (by rfl)

end BudgetCompass
